import Mathlib

/-!
# Verification of the ezbookkeeping_tools account-report program

Shallow embedding of the pure logic of `src/main.go`: the currency-exponent
table and balance formatter (`convertBalance`), the account partition pass in
`main`, the CSV row construction in `exportToCSV`, the per-currency summary
arithmetic in `generateHTMLReport` / `calculateTotalBalances` /
`getBalanceClass`, the configuration merge at the top of `main`, and the
outcome analysis of `fetchAccountList`.

Embedding conventions:
* Go `float64` balances are embedded as `Int` minor-unit values (the struct
  comment in the source says `Balance` "holds the balance in minor units");
  summary arithmetic, which the source performs on `float64` major units, is
  embedded over `ℚ` (exact arithmetic), which agrees with the source wherever
  the `float64` computation is exact — in particular at every concrete input
  used below.
* Go maps are embedded as association lists or as functions; Go map iteration
  order is unspecified, so where the source ranges over a map we fix the
  first-appearance order of keys, which is immaterial to the per-key
  properties proved here.
* File, console and network I/O are out of scope; only the pure values the
  source computes (CSV cell matrix, summary lines, resolved configuration,
  fetch outcome as a function of the HTTP result) are embedded.
-/

/-- Embedding of the Go struct `Account` (src/main.go:97-113).  `Balance` is
`Int` minor units (see the embedding conventions above); Go's `Type` field is
renamed `TypeCode` because `Type` is a Lean keyword. -/
structure Account where
  ID : String
  Name : String
  ParentID : String
  Category : Int
  TypeCode : Int
  Icon : String
  Color : String
  Currency : String
  Balance : Int
  Comment : String
  DisplayOrder : Int
  IsAsset : Bool
  Hidden : Bool
  CreditCardStatementDate : Int
  IsLiability : Bool
  deriving Repr, DecidableEq

/-- The static ISO 4217 exponent table `currencyExponents`
(src/main.go:86-89), as an association list (the Go map literal's entries in
source order). -/
def currencyExponents : List (String × Nat) :=
  [("USD", 2), ("EUR", 2), ("GBP", 2), ("JPY", 0), ("CNY", 2), ("INR", 2),
   ("CAD", 2), ("AUD", 2), ("HUF", 2), ("JOD", 3), ("KWD", 3), ("OMR", 3)]

/-- Embedding of Go's `strings.ToUpper` restricted to the ASCII strings the
program handles: uppercase each character. -/
def goToUpper (s : String) : String := String.mk (s.data.map Char.toUpper)

/-- The exponent lookup that `convertBalance` (src/main.go:375-378) and
`calculateTotalBalances` (src/main.go:325-328) both perform inline:
`currencyExponents[strings.ToUpper(currency)]`, defaulting to 2 when the
code is not in the table.  Named `exponentFor` after the spec's name for this
operation. -/
def exponentFor (currency : String) : Nat :=
  (currencyExponents.lookup (goToUpper currency)).getD 2

/-- Renders exactly `k` decimal digits of `n`, least-significant digit last,
zero-padded on the left: the fractional-digit part of Go's `%.*f`
fixed-point formatting. -/
def padFrac : Nat → Nat → List Char
  | 0, _ => []
  | k + 1, n => padFrac k (n / 10) ++ [Nat.digitChar (n % 10)]

/-- Embedding of `convertBalance` (src/main.go:374-382): look up the exponent
`e` for the (upper-cased) currency, divide the minor-unit balance by `10^e`
and render the quotient with `fmt.Sprintf("%.*f", e, ·)`.  For an integer
minor-unit balance the quotient has exactly `e` decimal places, so the
fixed-point rendering is: optional sign, decimal integer part, and (when
`e > 0`) a point followed by the `e` fractional digits. -/
def convertBalance (balance : Int) (currency : String) : String :=
  let e := exponentFor currency
  let n := balance.natAbs
  (if balance < 0 then "-" else "") ++ toString (n / 10 ^ e) ++
    (if e = 0 then "" else "." ++ String.mk (padFrac e (n % 10 ^ e)))

/-- The spec's formatter, stated from its words for the refinement claim:
"compute `minorUnits / 10^exponent` and render with exactly `exponent` digits
after the decimal point (zero digits for exponent 0)".  The `i`-th digit
after the point of `|minorUnits| / 10^e` is `⌊|minorUnits| / 10^(e-1-i)⌋ mod 10`. -/
def formatBalanceSpec (minorUnits : Int) (currencyCode : String) : String :=
  let e := exponentFor currencyCode
  let n := minorUnits.natAbs
  let fracDigits := (List.range e).map fun i => Nat.digitChar (n / 10 ^ (e - 1 - i) % 10)
  (if minorUnits < 0 then "-" else "") ++ toString (n / 10 ^ e) ++
    (if e = 0 then "" else "." ++ String.mk fracDigits)

/-- Embedding of `AccountCategory.String` (src/main.go:57-80), precomposed
with the Go conversion `AccountCategory(acc.Category)` from the raw `int`
category code (the `AccountCategory` constants are `iota + 1`, i.e. 1..9). -/
def accountCategoryString (category : Int) : String :=
  if category = 1 then "Cash"
  else if category = 2 then "Checking Account"
  else if category = 3 then "Credit Card"
  else if category = 4 then "Virtual Account"
  else if category = 5 then "Debt Account"
  else if category = 6 then "Receivables"
  else if category = 7 then "Investment Account"
  else if category = 8 then "Savings Account"
  else if category = 9 then "Certificate of Deposit"
  else "Unknown"

/-- Go's `fmt.Sprintf("%t", b)`. -/
def boolString (b : Bool) : String := if b then "true" else "false"

/-- The fixed CSV header row of `exportToCSV` (src/main.go:390). -/
def csvHeader : List String :=
  ["ID", "Name", "Currency", "Balance", "Category", "IsAsset", "IsLiability", "Comment"]

/-- One CSV data row of `exportToCSV` (src/main.go:394-408): the account's
fields, with `Balance` pre-converted by `convertBalance` and `Category`
rendered by `AccountCategory.String`. -/
def csvRow (acc : Account) : List String :=
  [acc.ID, acc.Name, acc.Currency, convertBalance acc.Balance acc.Currency,
   accountCategoryString acc.Category, boolString acc.IsAsset,
   boolString acc.IsLiability, acc.Comment]

/-- The in-memory cell matrix `csvData` that `exportToCSV`
(src/main.go:385-409) builds and then hands to the CSV writer (and, under
`-print`, to the console writer): the header row followed by one data row per
account, in bucket order.  The file/console writing itself is I/O and out of
scope. -/
def csvData (accounts : List Account) : List (List String) :=
  csvHeader :: accounts.map csvRow

/-- The partition pass of `main` (src/main.go:208-217): a single in-order
scan appending each account to `assets` when `IsAsset`, otherwise to
`liabilities` when `IsLiability`, otherwise to neither.  Written by structural
recursion; it produces the same pair of lists as the Go loop's
left-to-right appends. -/
def partitionAccounts : List Account → List Account × List Account
  | [] => ([], [])
  | account :: rest =>
    let p := partitionAccounts rest
    if account.IsAsset then (account :: p.1, p.2)
    else if account.IsLiability then (p.1, account :: p.2)
    else p

/-- The major-unit value `acc.Balance / 10^exp` that `calculateTotalBalances`
(src/main.go:324-331) adds into its per-currency total, in exact arithmetic
(`ℚ`). -/
def majorUnitBalance (acc : Account) : ℚ :=
  (acc.Balance : ℚ) / 10 ^ exponentFor acc.Currency

/-- Embedding of `calculateTotalBalances` (src/main.go:322-334) as the
resulting map, read as a total function: the Go map sends a currency key to
the sum of the major-unit balances of the accounts carrying exactly that
(raw, not upper-cased) currency string, and absent keys read as 0 — which is
both Go's zero-value map read and the sum over the empty sublist. -/
def calculateTotalBalances (accounts : List Account) (currency : String) : ℚ :=
  ((accounts.filter fun acc => acc.Currency = currency).map majorUnitBalance).sum

/-- The key set of the `calculateTotalBalances` map, in first-appearance
order: one entry per distinct `Currency` string among the accounts.  Go map
iteration order is unspecified; the per-currency claims below only use
membership in this list. -/
def balanceCurrencies (accounts : List Account) : List String :=
  (accounts.map Account.Currency).dedup

/-- `getBalanceClass` (src/main.go:336-341), over exact major-unit values. -/
def getBalanceClass (balance : ℚ) : String :=
  if balance ≥ 0 then "positive" else "negative"

/-- One per-currency block of the financial-summary section that
`generateHTMLReport` (src/main.go:280-288) writes: the displayed values and
the CSS classes attached to each of the three lines. -/
structure SummaryLine where
  currency : String
  totalAsset : ℚ
  liabilityTotal : ℚ
  netAsset : ℚ
  totalAssetClass : String
  liabilityClass : String
  netClass : String
  deriving Repr, DecidableEq

/-- The summary block `generateHTMLReport` (src/main.go:280-288) emits for
one currency key of the asset-totals map: `total` is the asset total,
`liabilityTotal` the liability total; the code then displays
`totalAsset := total - liabilityTotal` tagged with the literal class
`"positive"`, `liabilityTotal` tagged with the literal class `"negative"`,
and `netAsset := totalAsset + liabilityTotal` tagged with
`getBalanceClass netAsset`. -/
def summaryLineFor (assets liabilities : List Account) (currency : String) : SummaryLine :=
  let total := calculateTotalBalances assets currency
  let liabilityTotal := calculateTotalBalances liabilities currency
  let totalAsset := total - liabilityTotal
  let netAsset := totalAsset + liabilityTotal
  { currency := currency
    totalAsset := totalAsset
    liabilityTotal := liabilityTotal
    netAsset := netAsset
    totalAssetClass := "positive"
    liabilityClass := "negative"
    netClass := getBalanceClass netAsset }

/-- The whole summary section of `generateHTMLReport` (src/main.go:280-288):
one `SummaryLine` per key of the asset-totals map — the loop ranges over
`assetTotals` only, so only currencies occurring among the asset accounts get
a block. -/
def summaryLines (assets liabilities : List Account) : List SummaryLine :=
  (balanceCurrencies assets).map (summaryLineFor assets liabilities)

/-- The program's configuration record: the global configuration variables of
src/main.go:23-40 (minus `configFile`, which only names the file to load and
is not itself merged). -/
structure Config where
  baseURL : String
  loginName : String
  password : String
  debugMode : Bool
  printMode : Bool
  emailRecipient : String
  smtpHost : String
  smtpPort : Int
  smtpUsername : String
  smtpPassword : String
  smtpSender : String
  deriving Repr, DecidableEq

/-- The flag defaults registered in `init` (src/main.go:121-139): every
string flag defaults to `""`, the booleans to `false`, and `-smtp-port` to
`587`.  After `flag.Parse` the globals hold either these defaults or the
values the user supplied; the code cannot tell an explicitly supplied default
apart from an omitted flag. -/
def defaultFlags : Config :=
  { baseURL := "", loginName := "", password := "", debugMode := false,
    printMode := false, emailRecipient := "", smtpHost := "", smtpPort := 587,
    smtpUsername := "", smtpPassword := "", smtpSender := "" }

/-- Digit-run accumulator used by `sscanfInt`. -/
def digitsToNat (ds : List Char) : Nat :=
  ds.foldl (fun acc c => acc * 10 + (c.toNat - 48)) 0

/-- Model of `fmt.Sscanf(val, "%d", &num)` as used by `envToInt`
(src/main.go:245): skip leading whitespace, read an optional sign and a
nonempty run of decimal digits (trailing characters are ignored); `none` when
no digit is found. -/
def sscanfInt (s : String) : Option Int :=
  let core : List Char × Bool :=
    match s.trimLeft.data with
    | '-' :: r => (r, true)
    | '+' :: r => (r, false)
    | r => (r, false)
  let ds := core.1.takeWhile Char.isDigit
  if ds.isEmpty then none
  else
    let n : Int := digitsToNat ds
    some (if core.2 then -n else n)

/-- Embedding of `envToInt` (src/main.go:239-250), with the environment read
already performed: empty value or unparsable value falls back to the
default. -/
def envToInt (val : String) (defaultVal : Int) : Int :=
  if val = "" then defaultVal
  else
    match sscanfInt val with
    | some num => num
    | none => defaultVal

/-- The configuration merge at the top of `main` (src/main.go:144-184).
`flags` holds the post-`flag.Parse` globals; `envFile` is `some env` when the
`-config` file exists (with `env k` the file's value for key `k`, `""` when
the key is absent — Go's `os.Getenv` zero value), and `none` when it does
not.  The file is consulted at all only when one of base URL, login name or
password is still empty after flags; each string key is taken from the file
only when its flag value is empty, and `smtpPort` only when its flag value is
`0`. -/
def resolveConfig (flags : Config) (envFile : Option (String → String)) : Config :=
  if flags.baseURL = "" ∨ flags.loginName = "" ∨ flags.password = "" then
    match envFile with
    | some env =>
      { flags with
        baseURL := if flags.baseURL = "" then env "BASE_URL" else flags.baseURL
        loginName := if flags.loginName = "" then env "LOGIN_NAME" else flags.loginName
        password := if flags.password = "" then env "PASSWORD" else flags.password
        emailRecipient := if flags.emailRecipient = "" then env "EMAIL_TO" else flags.emailRecipient
        smtpHost := if flags.smtpHost = "" then env "SMTP_HOST" else flags.smtpHost
        smtpPort := if flags.smtpPort = 0 then envToInt (env "SMTP_PORT") 587 else flags.smtpPort
        smtpUsername := if flags.smtpUsername = "" then env "SMTP_USER" else flags.smtpUsername
        smtpPassword := if flags.smtpPassword = "" then env "SMTP_PASS" else flags.smtpPassword
        smtpSender := if flags.smtpSender = "" then env "SMTP_FROM" else flags.smtpSender }
    | none => flags
  else flags

/-- Outcome of the configuration phase of `main`: either the fatal
termination of src/main.go:187-191 or the resolved configuration the rest of
the pipeline (starting with the first network call at src/main.go:196) runs
with. -/
inductive ConfigOutcome where
  | fatalMissing : ConfigOutcome
  | proceed : Config → ConfigOutcome
  deriving Repr, DecidableEq

/-- The validation step of `main` (src/main.go:187-191), performed after the
merge and before any network call: fatal when base URL, login name or
password is still empty. -/
def configPhase (flags : Config) (envFile : Option (String → String)) : ConfigOutcome :=
  let c := resolveConfig flags envFile
  if c.baseURL = "" ∨ c.loginName = "" ∨ c.password = "" then .fatalMissing
  else .proceed c

/-- Embedding of the Go struct `AccountListResponse` (src/main.go:115-118). -/
structure AccountListResponse where
  Result : List Account
  Success : Bool
  deriving Repr, DecidableEq

/-- The observable result of the HTTP GET inside `fetchAccountList`:
either a transport error from `client.Do`, or a response with its status
code, the outcome of `io.ReadAll` on its body (`readErr = some msg` when the
read failed, in which case `body` holds the bytes read so far), and the body
bytes. -/
inductive HttpResult where
  | transportError (msg : String)
  | response (statusCode : Nat) (readErr : Option String) (body : String)
  deriving Repr, DecidableEq

/-- The distinct error returns of `fetchAccountList` (src/main.go:483-526),
one constructor per `fmt.Errorf` site that the HTTP exchange can reach:
transport failure (line 498), non-200 status carrying the status code and the
raw body (line 508), body-read failure (line 513), JSON decode failure
(line 518), and `success: false` (line 522). -/
inductive FetchError where
  | transport (msg : String)
  | badStatus (statusCode : Nat) (body : String)
  | bodyRead (msg : String)
  | decodeFailed
  | successFalse
  deriving Repr, DecidableEq

/-- Result of `fetchAccountList`: the account list or an error. -/
inductive FetchOutcome where
  | ok (accounts : List Account)
  | err (e : FetchError)
  deriving Repr, DecidableEq

/-- Embedding of `fetchAccountList` (src/main.go:483-526) as a function of
the HTTP exchange's observable result.  `decode` stands for
`json.Unmarshal` into `AccountListResponse` (`none` = decode error); the
request construction and debug dumping do not affect the outcome. -/
def fetchAccountList (decode : String → Option AccountListResponse) :
    HttpResult → FetchOutcome
  | .transportError msg => .err (.transport msg)
  | .response statusCode readErr body =>
    if statusCode ≠ 200 then .err (.badStatus statusCode body)
    else
      match readErr with
      | some msg => .err (.bodyRead msg)
      | none =>
        match decode body with
        | none => .err .decodeFailed
        | some listResp =>
          if listResp.Success then .ok listResp.Result else .err .successFalse

/-- Builds a concrete `Account` for the concrete test inputs below; the
fields the claims never read are fixed to zero values. -/
def sampleAccount (id name currency : String) (category balance : Int)
    (isAsset isLiability : Bool) : Account :=
  { ID := id, Name := name, ParentID := "", Category := category,
    TypeCode := 1, Icon := "", Color := "", Currency := currency,
    Balance := balance, Comment := "", DisplayOrder := 0, IsAsset := isAsset,
    Hidden := false, CreditCardStatementDate := 0, IsLiability := isLiability }

/-- A USD asset account with balance 1000.00 (100000 minor units). -/
def accUSDAsset : Account := sampleAccount "1" "Checking" "USD" 2 100000 true false

/-- A USD liability account with balance -200.00 (-20000 minor units). -/
def accUSDLiab : Account := sampleAccount "2" "Card" "USD" 3 (-20000) false true

/-- An account with both boolean flags false. -/
def accNeither : Account := sampleAccount "3" "Watchlist" "USD" 1 500 false false

/-- An account with both boolean flags true. -/
def accBothFlags : Account := sampleAccount "4" "Mixed" "USD" 1 100 true true

/-- A EUR liability account with balance -50.00; no asset account carries
EUR in the fixtures. -/
def accEURLiabOnly : Account := sampleAccount "5" "Loan" "EUR" 5 (-5000) false true

/-- A USD asset account with negative balance -50.00. -/
def accUSDAssetNeg : Account := sampleAccount "6" "Overdrawn" "USD" 2 (-5000) true false

/-- A decoded list response with `success: true`, for the fetch outcome
tests. -/
def sampleListResponse : AccountListResponse :=
  { Result := [accUSDAsset, accUSDLiab], Success := true }

/-- A decoded list response with `success: false`. -/
def failListResponse : AccountListResponse := { Result := [], Success := false }

/-- A concrete stand-in for `json.Unmarshal` in the fetch outcome tests:
decodes two fixed bodies, rejects everything else. -/
def sampleDecoder : String → Option AccountListResponse := fun body =>
  if body = "okbody" then some sampleListResponse
  else if body = "nosuccess" then some failListResponse
  else none

/-- Concrete flag values for the configuration tests: `-url` and `-pass`
supplied, `-user` omitted (so the config file is consulted), everything else
left at the registered defaults — in particular `-smtp-port` at 587. -/
def c4Flags : Config :=
  { defaultFlags with
    baseURL := "https://books.example"
    password := "hunter2" }

/-- Concrete flag values with all three required keys supplied. -/
def c4FlagsFull : Config :=
  { defaultFlags with
    baseURL := "https://books.example"
    loginName := "bob"
    password := "hunter2" }

/-- A concrete config file providing `LOGIN_NAME` and `SMTP_PORT`
(`os.Getenv` semantics: absent keys read as `""`). -/
def c4Env : String → String := fun key =>
  if key = "LOGIN_NAME" then "alice"
  else if key = "SMTP_PORT" then "2525"
  else ""

/-- Reducing the dividend modulo `10^k` does not change its low `k` decimal
digits. -/
theorem padFrac_mod (e n : Nat) : padFrac e (n % 10 ^ e) = padFrac e n := by
  induction e generalizing n with
  | zero => rfl
  | succ e ih =>
    have h1 : n % 10 ^ (e + 1) / 10 = n / 10 % 10 ^ e := by
      rw [pow_succ']
      exact Nat.mod_mul_right_div_self n 10 (10 ^ e)
    have h2 : n % 10 ^ (e + 1) % 10 = n % 10 :=
      Nat.mod_mod_of_dvd n (dvd_pow_self 10 e.succ_ne_zero)
    simp only [padFrac, h1, h2, ih]

/-- The least-significant-first construction `padFrac` produces the same `k`
digit characters as reading the digits most-significant-first. -/
theorem padFrac_eq_range (e n : Nat) :
    padFrac e n = (List.range e).map fun i => Nat.digitChar (n / 10 ^ (e - 1 - i) % 10) := by
  induction e generalizing n with
  | zero => rfl
  | succ e ih =>
    rw [List.range_succ, List.map_append]
    simp only [padFrac, List.map_cons, List.map_nil]
    congr 1
    · rw [ih (n / 10)]
      apply List.map_congr_left
      intro i hi
      rw [List.mem_range] at hi
      have harith : 10 * 10 ^ (e - 1 - i) = 10 ^ (e + 1 - 1 - i) := by
        rw [← pow_succ']
        congr 1
        omega
      rw [Nat.div_div_eq_div_mul, harith]
    · simp

/-- The partition pass is the pair of order-preserving filters: `IsAsset`
accounts, and non-`IsAsset` `IsLiability` accounts. -/
theorem partitionAccounts_eq_filter (accounts : List Account) :
    partitionAccounts accounts =
      (accounts.filter fun a => a.IsAsset,
       accounts.filter fun a => !a.IsAsset && a.IsLiability) := by
  induction accounts with
  | nil => rfl
  | cons a rest ih =>
    simp only [partitionAccounts, ih, List.filter_cons]
    by_cases h1 : a.IsAsset <;> by_cases h2 : a.IsLiability <;> simp [h1, h2]

/-- C1: `convertBalance` returns exactly the string obtained by dividing the
minor-unit balance by `10^exponent` for the currency and rendering it with
exactly `exponent` digits after the decimal point (no decimal point when the
exponent is 0), as `formatBalanceSpec` states from the spec's words; in
particular `convertBalance 500 "JPY" = "500"`,
`convertBalance 12345 "KWD" = "12.345"` and
`convertBalance 999 "USD" = "9.99"`. -/
theorem convertBalance_refines_spec :
    (∀ (balance : Int) (currency : String),
      convertBalance balance currency = formatBalanceSpec balance currency) ∧
    convertBalance 500 "JPY" = "500" ∧
    convertBalance 12345 "KWD" = "12.345" ∧
    convertBalance 999 "USD" = "9.99" := by
  refine ⟨fun balance currency => ?_, by decide, by decide, by decide⟩
  have h : padFrac (exponentFor currency)
        (balance.natAbs % 10 ^ exponentFor currency) =
      (List.range (exponentFor currency)).map fun i =>
        Nat.digitChar (balance.natAbs / 10 ^ (exponentFor currency - 1 - i) % 10) :=
    (padFrac_mod _ _).trans (padFrac_eq_range _ _)
  simp only [convertBalance, formatBalanceSpec, h]

/-- C6: the exponent lookup is case-insensitive — any two codes with the same
upper-casing resolve to the same exponent, in particular "usd" and "USD"
both resolve to 2 — and every code whose upper-casing is not a key of the
static table resolves to 2.  (The table `currencyExponents` is a constant of
the embedding; the source only ever reads it.) -/
theorem exponentFor_case_insensitive_default :
    (∀ s t : String, goToUpper s = goToUpper t → exponentFor s = exponentFor t) ∧
    exponentFor "usd" = 2 ∧ exponentFor "USD" = 2 ∧
    (∀ c : String, currencyExponents.lookup (goToUpper c) = none → exponentFor c = 2) := by
  refine ⟨fun s t h => ?_, by decide, by decide, fun c h => ?_⟩
  · simp only [exponentFor, h]
  · simp only [exponentFor, h, Option.getD_none]

/-- Witness for C6 at concrete inputs. -/
theorem exponentFor_case_insensitive_default_witness :
    exponentFor "usd" = exponentFor "USD" ∧ exponentFor "xyz" = 2 :=
  ⟨exponentFor_case_insensitive_default.1 "usd" "USD" (by decide),
   exponentFor_case_insensitive_default.2.2.2 "xyz" (by decide)⟩

/-- C3: the partition pass puts no account value in both buckets, excludes
accounts with both boolean flags false from both buckets, and each bucket
preserves the input's relative order (each is a sublist of the input). -/
theorem partition_disjoint_ordered (accounts : List Account) :
    (∀ a : Account, a ∈ (partitionAccounts accounts).1 →
      a ∉ (partitionAccounts accounts).2) ∧
    (∀ a : Account, a.IsAsset = false → a.IsLiability = false →
      a ∉ (partitionAccounts accounts).1 ∧ a ∉ (partitionAccounts accounts).2) ∧
    (partitionAccounts accounts).1.Sublist accounts ∧
    (partitionAccounts accounts).2.Sublist accounts := by
  rw [partitionAccounts_eq_filter]
  refine ⟨?_, ?_, List.filter_sublist _, List.filter_sublist _⟩
  · intro a h1 h2
    simp only [List.mem_filter] at h1 h2
    rw [h1.2] at h2
    simp at h2
  · intro a hA hL
    constructor
    · intro hmem
      simp only [List.mem_filter] at hmem
      rw [hA] at hmem
      simp at hmem
    · intro hmem
      simp only [List.mem_filter] at hmem
      rw [Bool.and_eq_true] at hmem
      rw [hL] at hmem
      simp at hmem

/-- Witness for C3 at a concrete two-account input. -/
theorem partition_disjoint_ordered_witness :
    (accNeither ∉ (partitionAccounts [accUSDAsset, accNeither]).1 ∧
     accNeither ∉ (partitionAccounts [accUSDAsset, accNeither]).2) ∧
    accUSDAsset ∉ (partitionAccounts [accUSDAsset, accNeither]).2 :=
  ⟨(partition_disjoint_ordered [accUSDAsset, accNeither]).2.1 accNeither
      (by decide) (by decide),
   (partition_disjoint_ordered [accUSDAsset, accNeither]).1 accUSDAsset (by decide)⟩

/-- C9: an account with both `IsAsset` and `IsLiability` true is placed in
the assets bucket only and never in the liabilities bucket: the `IsAsset`
test is taken first in the loop of src/main.go:211-217. -/
theorem both_flags_assets_only (accounts : List Account) (a : Account)
    (hA : a.IsAsset = true) (hL : a.IsLiability = true) :
    (a ∈ accounts → a ∈ (partitionAccounts accounts).1) ∧
    a ∉ (partitionAccounts accounts).2 := by
  rw [partitionAccounts_eq_filter]
  constructor
  · intro hmem
    simp [List.mem_filter, hA, hmem]
  · intro hmem
    simp only [List.mem_filter] at hmem
    rw [hA] at hmem
    simp at hmem

/-- Witness for C9 at a concrete both-flag account. -/
theorem both_flags_assets_only_witness :
    accBothFlags ∈ (partitionAccounts [accBothFlags]).1 ∧
    accBothFlags ∉ (partitionAccounts [accBothFlags]).2 :=
  ⟨(both_flags_assets_only [accBothFlags] accBothFlags (by decide) (by decide)).1
      (by decide),
   (both_flags_assets_only [accBothFlags] accBothFlags (by decide) (by decide)).2⟩

/-- C5: for every bucket, the CSV cell matrix is exactly the fixed header row
followed by one data row per account in bucket order; each data row carries
the currency formatter's output in its Balance column and the human-readable
category label (e.g. "Credit Card" for code 3), not the numeric code, in its
Category column. -/
theorem csv_matrix_exact (accounts : List Account) :
    (csvData accounts).length = accounts.length + 1 ∧
    (csvData accounts).head? =
      some ["ID", "Name", "Currency", "Balance", "Category", "IsAsset",
            "IsLiability", "Comment"] ∧
    accountCategoryString 3 = "Credit Card" ∧
    (∀ (i : Nat) (h : i < accounts.length) (h2 : i + 1 < (csvData accounts).length),
      (csvData accounts).get ⟨i + 1, h2⟩ =
        [(accounts.get ⟨i, h⟩).ID, (accounts.get ⟨i, h⟩).Name,
         (accounts.get ⟨i, h⟩).Currency,
         convertBalance (accounts.get ⟨i, h⟩).Balance (accounts.get ⟨i, h⟩).Currency,
         accountCategoryString (accounts.get ⟨i, h⟩).Category,
         boolString (accounts.get ⟨i, h⟩).IsAsset,
         boolString (accounts.get ⟨i, h⟩).IsLiability,
         (accounts.get ⟨i, h⟩).Comment]) := by
  refine ⟨by simp [csvData], by simp [csvData, csvHeader], by decide, ?_⟩
  intro i h h2
  simp [csvData, csvRow, List.get]

/-- Witness for C5 at a one-account bucket. -/
theorem csv_matrix_exact_witness :
    (csvData [accUSDLiab]).length = 1 + 1 ∧
    (csvData [accUSDLiab]).get ⟨0 + 1, by decide⟩ =
      [accUSDLiab.ID, accUSDLiab.Name, accUSDLiab.Currency,
       convertBalance accUSDLiab.Balance accUSDLiab.Currency,
       accountCategoryString accUSDLiab.Category, boolString accUSDLiab.IsAsset,
       boolString accUSDLiab.IsLiability, accUSDLiab.Comment] :=
  ⟨(csv_matrix_exact [accUSDLiab]).1,
   (csv_matrix_exact [accUSDLiab]).2.2.2 0 (by decide) (by decide)⟩

/-- Evaluation of the USD asset fixture's per-currency total: 1000.00. -/
theorem calc_accUSDAsset : calculateTotalBalances [accUSDAsset] "USD" = 1000 := by
  have he : exponentFor "USD" = 2 := by decide
  norm_num [calculateTotalBalances, majorUnitBalance, accUSDAsset, sampleAccount, he]

/-- Evaluation of the USD liability fixture's per-currency total: -200.00. -/
theorem calc_accUSDLiab : calculateTotalBalances [accUSDLiab] "USD" = -200 := by
  have he : exponentFor "USD" = 2 := by decide
  norm_num [calculateTotalBalances, majorUnitBalance, accUSDLiab, sampleAccount, he]

/-- Evaluation of the negative USD asset fixture's total: -50.00. -/
theorem calc_accUSDAssetNeg : calculateTotalBalances [accUSDAssetNeg] "USD" = -50 := by
  have he : exponentFor "USD" = 2 := by decide
  norm_num [calculateTotalBalances, majorUnitBalance, accUSDAssetNeg, sampleAccount, he]

/-- Evaluation of the EUR liability fixture's total: -50.00. -/
theorem calc_accEURLiabOnly : calculateTotalBalances [accEURLiabOnly] "EUR" = -50 := by
  have he : exponentFor "EUR" = 2 := by decide
  norm_num [calculateTotalBalances, majorUnitBalance, accEURLiabOnly, sampleAccount, he]

/-- C2 (code bug in src/main.go:283-284): the reported net asset is
`(total - liabilityTotal) + liabilityTotal`, identically the *asset total* —
not the asset total plus the liability total.  With an asset total of 1000.00
and a liability total of -200.00 in USD the code reports Net Assets 1000.00
(and "Total Assets" 1200.00), where the claim requires net 800.00. -/
theorem netAsset_is_assetTotal :
    (∀ (assets liabilities : List Account) (currency : String),
      (summaryLineFor assets liabilities currency).netAsset =
        calculateTotalBalances assets currency) ∧
    calculateTotalBalances [accUSDAsset] "USD" = 1000 ∧
    calculateTotalBalances [accUSDLiab] "USD" = -200 ∧
    (summaryLineFor [accUSDAsset] [accUSDLiab] "USD").netAsset = 1000 ∧
    (summaryLineFor [accUSDAsset] [accUSDLiab] "USD").totalAsset = 1200 ∧
    calculateTotalBalances [accUSDAsset] "USD" +
        calculateTotalBalances [accUSDLiab] "USD" = 800 := by
  refine ⟨fun assets liabilities currency => ?_, calc_accUSDAsset, calc_accUSDLiab,
    ?_, ?_, ?_⟩
  · show calculateTotalBalances assets currency -
          calculateTotalBalances liabilities currency +
          calculateTotalBalances liabilities currency =
        calculateTotalBalances assets currency
    ring
  · show calculateTotalBalances [accUSDAsset] "USD" -
          calculateTotalBalances [accUSDLiab] "USD" +
          calculateTotalBalances [accUSDLiab] "USD" = 1000
    rw [calc_accUSDAsset, calc_accUSDLiab]
    norm_num
  · show calculateTotalBalances [accUSDAsset] "USD" -
          calculateTotalBalances [accUSDLiab] "USD" = 1200
    rw [calc_accUSDAsset, calc_accUSDLiab]
    norm_num
  · rw [calc_accUSDAsset, calc_accUSDLiab]
    norm_num

/-- C8 counterexample: with a single USD asset account of balance -50.00 and
no liabilities, the summary's Total Assets value is -50 yet its CSS class is
the hard-coded "positive", while the sign rule labels -50 "negative": the
Total Assets line is not tagged according to the sign of its value. -/
theorem summary_class_counterexample :
    (summaryLineFor [accUSDAssetNeg] [] "USD").totalAsset = -50 ∧
    (summaryLineFor [accUSDAssetNeg] [] "USD").totalAssetClass = "positive" ∧
    getBalanceClass (-50) = "negative" := by
  refine ⟨?_, rfl, ?_⟩
  · show calculateTotalBalances [accUSDAssetNeg] "USD" -
        calculateTotalBalances [] "USD" = -50
    rw [calc_accUSDAssetNeg]
    norm_num [calculateTotalBalances]
  · norm_num [getBalanceClass]

/-- C8 amended: only the Net Assets line is tagged by the sign of its value
(`getBalanceClass`: nonnegative ↦ "positive", negative ↦ "negative", so a net
of -50.00 is tagged "negative"); the Total Assets line always carries class
"positive" and the Total Liabilities line always class "negative", regardless
of sign. -/
theorem summary_classes_amended :
    (∀ (assets liabilities : List Account) (currency : String),
      (summaryLineFor assets liabilities currency).totalAssetClass = "positive" ∧
      (summaryLineFor assets liabilities currency).liabilityClass = "negative" ∧
      (summaryLineFor assets liabilities currency).netClass =
        getBalanceClass (summaryLineFor assets liabilities currency).netAsset) ∧
    (∀ q : ℚ, q < 0 → getBalanceClass q = "negative") ∧
    (∀ q : ℚ, 0 ≤ q → getBalanceClass q = "positive") ∧
    getBalanceClass (-50) = "negative" := by
  refine ⟨fun assets liabilities currency => ⟨rfl, rfl, rfl⟩,
    fun q hq => ?_, fun q hq => ?_, by norm_num [getBalanceClass]⟩
  · rw [getBalanceClass, if_neg (not_le.mpr hq)]
  · rw [getBalanceClass, if_pos hq]

/-- Witness for C8's amended sign rule at concrete values. -/
theorem summary_classes_amended_witness :
    getBalanceClass (-7) = "negative" ∧ getBalanceClass 7 = "positive" :=
  ⟨summary_classes_amended.2.1 (-7) (by norm_num),
   summary_classes_amended.2.2.1 7 (by norm_num)⟩

/-- C10: the summary section has exactly one block per distinct currency of
the asset bucket (the loop ranges over the asset-totals map only), so a
currency occurring only among liability accounts gets no Total Assets /
Total Liabilities / Net Assets lines at all. -/
theorem summary_currencies_from_assets :
    (∀ (assets liabilities : List Account),
      (summaryLines assets liabilities).map SummaryLine.currency =
        (assets.map Account.Currency).dedup) ∧
    (∀ (assets liabilities : List Account) (currency : String),
      (∀ a ∈ assets, a.Currency ≠ currency) →
      ∀ line ∈ summaryLines assets liabilities, line.currency ≠ currency) := by
  constructor
  · intro assets liabilities
    simp only [summaryLines, List.map_map]
    have hcomp : (SummaryLine.currency ∘ summaryLineFor assets liabilities) = id := rfl
    rw [hcomp, List.map_id, balanceCurrencies]
  · intro assets liabilities currency h line hline
    simp only [summaryLines, List.mem_map] at hline
    obtain ⟨c, hc, rfl⟩ := hline
    simp only [balanceCurrencies, List.mem_dedup, List.mem_map] at hc
    obtain ⟨a, ha, rfl⟩ := hc
    exact fun hEq => h a ha hEq

/-- Witness for C10: the EUR-only liability has total -50.00 yet the only
summary block of the fixture report is for USD. -/
theorem summary_currencies_from_assets_witness :
    (summaryLineFor [accUSDAsset] [accEURLiabOnly] "USD").currency ≠ "EUR" ∧
    calculateTotalBalances [accEURLiabOnly] "EUR" = -50 :=
  ⟨summary_currencies_from_assets.2 [accUSDAsset] [accEURLiabOnly] "EUR"
      (by decide) (summaryLineFor [accUSDAsset] [accEURLiabOnly] "USD")
      (List.mem_map_of_mem _ (by decide)),
   calc_accEURLiabOnly⟩

/-- C4 counterexample: with `-url` and `-pass` supplied, `-smtp-port` left
unsupplied (so the parsed flag already holds the default 587) and the config
file providing `SMTP_PORT=2525` (and the missing `LOGIN_NAME`), the resolved
SMTP port is 587, not the file's 2525: the `smtpPort == 0` fallback guard
(src/main.go:169-171) can never fire for an unsupplied flag. -/
theorem smtp_port_file_ignored :
    c4Flags.smtpPort = defaultFlags.smtpPort ∧
    c4Env "SMTP_PORT" = "2525" ∧
    (resolveConfig c4Flags (some c4Env)).smtpPort = 587 ∧
    (resolveConfig c4Flags (some c4Env)).smtpPort ≠ 2525 ∧
    (resolveConfig c4Flags (some c4Env)).loginName = "alice" := by decide

/-- The file-consulted branch of `resolveConfig` (src/main.go:145-184): when
a required key is still empty after flags and the file exists, every key
whose flag value is empty (for `smtpPort`: zero) is filled from the file. -/
theorem resolveConfig_file_open (flags : Config) (env : String → String)
    (hgate : flags.baseURL = "" ∨ flags.loginName = "" ∨ flags.password = "") :
    resolveConfig flags (some env) =
      { flags with
        baseURL := if flags.baseURL = "" then env "BASE_URL" else flags.baseURL
        loginName := if flags.loginName = "" then env "LOGIN_NAME" else flags.loginName
        password := if flags.password = "" then env "PASSWORD" else flags.password
        emailRecipient :=
          if flags.emailRecipient = "" then env "EMAIL_TO" else flags.emailRecipient
        smtpHost := if flags.smtpHost = "" then env "SMTP_HOST" else flags.smtpHost
        smtpPort :=
          if flags.smtpPort = 0 then envToInt (env "SMTP_PORT") 587 else flags.smtpPort
        smtpUsername :=
          if flags.smtpUsername = "" then env "SMTP_USER" else flags.smtpUsername
        smtpPassword :=
          if flags.smtpPassword = "" then env "SMTP_PASS" else flags.smtpPassword
        smtpSender :=
          if flags.smtpSender = "" then env "SMTP_FROM" else flags.smtpSender } := by
  simp only [resolveConfig]
  rw [if_pos hgate]

/-- The file-ignored branch of `resolveConfig`: with all three required keys
supplied by flags, the file is never read and every flag value stands. -/
theorem resolveConfig_file_closed (flags : Config) (env : String → String)
    (hgate : ¬(flags.baseURL = "" ∨ flags.loginName = "" ∨ flags.password = "")) :
    resolveConfig flags (some env) = flags := by
  simp only [resolveConfig]
  rw [if_neg hgate]

/-- With no config file present the flag values stand unchanged. -/
theorem resolveConfig_none (flags : Config) : resolveConfig flags none = flags := by
  simp only [resolveConfig]
  split
  · rfl
  · rfl

/-- C4 amended: each string key resolves to its flag value when that value is
nonempty; the config file is consulted only when at least one of base URL,
login name and password is empty after flags (with all three supplied, or
with no file, the flag values — including defaults — stand unchanged); when
the file is consulted, a string key whose flag value is empty takes the
file's value; the SMTP port keeps the flag value (default 587) unless that
value is 0, in which case the file's `SMTP_PORT` (default 587) applies; and
the configuration phase ends in fatal termination, before any network call,
exactly when base URL, login name or password is still empty after merging.
Conjuncts 1-3 characterize the three required keys unconditionally (an empty
required key itself opens the file-consulted branch); conjunct 4 covers all
six optional keys in the file-consulted branch and conjunct 5 every key in
the file-ignored branch. -/
theorem config_resolution (flags : Config) (env : String → String) :
    ((resolveConfig flags (some env)).baseURL =
      if flags.baseURL = "" then env "BASE_URL" else flags.baseURL) ∧
    ((resolveConfig flags (some env)).loginName =
      if flags.loginName = "" then env "LOGIN_NAME" else flags.loginName) ∧
    ((resolveConfig flags (some env)).password =
      if flags.password = "" then env "PASSWORD" else flags.password) ∧
    ((flags.baseURL = "" ∨ flags.loginName = "" ∨ flags.password = "") →
      ((resolveConfig flags (some env)).emailRecipient =
        if flags.emailRecipient = "" then env "EMAIL_TO" else flags.emailRecipient) ∧
      ((resolveConfig flags (some env)).smtpHost =
        if flags.smtpHost = "" then env "SMTP_HOST" else flags.smtpHost) ∧
      ((resolveConfig flags (some env)).smtpUsername =
        if flags.smtpUsername = "" then env "SMTP_USER" else flags.smtpUsername) ∧
      ((resolveConfig flags (some env)).smtpPassword =
        if flags.smtpPassword = "" then env "SMTP_PASS" else flags.smtpPassword) ∧
      ((resolveConfig flags (some env)).smtpSender =
        if flags.smtpSender = "" then env "SMTP_FROM" else flags.smtpSender) ∧
      ((resolveConfig flags (some env)).smtpPort =
        if flags.smtpPort = 0 then envToInt (env "SMTP_PORT") 587 else flags.smtpPort)) ∧
    (¬(flags.baseURL = "" ∨ flags.loginName = "" ∨ flags.password = "") →
      resolveConfig flags (some env) = flags) ∧
    (flags.smtpPort ≠ 0 → (resolveConfig flags (some env)).smtpPort = flags.smtpPort) ∧
    (resolveConfig flags none = flags) ∧
    defaultFlags.smtpPort = 587 ∧
    (configPhase flags (some env) = .fatalMissing ↔
      ((resolveConfig flags (some env)).baseURL = "" ∨
       (resolveConfig flags (some env)).loginName = "" ∨
       (resolveConfig flags (some env)).password = "")) := by
  have hiff : configPhase flags (some env) = .fatalMissing ↔
      ((resolveConfig flags (some env)).baseURL = "" ∨
       (resolveConfig flags (some env)).loginName = "" ∨
       (resolveConfig flags (some env)).password = "") := by
    simp only [configPhase]
    split
    · rename_i hP
      simp [hP]
    · rename_i hP
      simp [hP]
  refine ⟨?_, ?_, ?_, ?_, resolveConfig_file_closed flags env, ?_,
    resolveConfig_none flags, rfl, hiff⟩
  · by_cases hgate : flags.baseURL = "" ∨ flags.loginName = "" ∨ flags.password = ""
    · rw [resolveConfig_file_open flags env hgate]
    · rw [resolveConfig_file_closed flags env hgate]
      push_neg at hgate
      rw [if_neg hgate.1]
  · by_cases hgate : flags.baseURL = "" ∨ flags.loginName = "" ∨ flags.password = ""
    · rw [resolveConfig_file_open flags env hgate]
    · rw [resolveConfig_file_closed flags env hgate]
      push_neg at hgate
      rw [if_neg hgate.2.1]
  · by_cases hgate : flags.baseURL = "" ∨ flags.loginName = "" ∨ flags.password = ""
    · rw [resolveConfig_file_open flags env hgate]
    · rw [resolveConfig_file_closed flags env hgate]
      push_neg at hgate
      rw [if_neg hgate.2.2]
  · intro hgate
    rw [resolveConfig_file_open flags env hgate]
    exact ⟨rfl, rfl, rfl, rfl, rfl, rfl⟩
  · intro h
    by_cases hgate : flags.baseURL = "" ∨ flags.loginName = "" ∨ flags.password = ""
    · rw [resolveConfig_file_open flags env hgate]
      exact if_neg h
    · rw [resolveConfig_file_closed flags env hgate]

/-- Witness for C4's amended resolution rules at concrete inputs: with
`-user` missing the file is consulted (password keeps its nonempty flag
value, the SMTP port keeps its nonzero flag value 587); with all required
flags supplied the file is ignored wholesale. -/
theorem config_resolution_witness :
    (resolveConfig c4Flags (some c4Env)).password =
      (if c4Flags.password = "" then c4Env "PASSWORD" else c4Flags.password) ∧
    (resolveConfig c4Flags (some c4Env)).smtpPort =
      (if c4Flags.smtpPort = 0 then envToInt (c4Env "SMTP_PORT") 587
       else c4Flags.smtpPort) ∧
    resolveConfig c4FlagsFull (some c4Env) = c4FlagsFull ∧
    (resolveConfig c4Flags (some c4Env)).smtpPort = c4Flags.smtpPort := by
  obtain ⟨h1, h2, h3, h4, h5, h6, h7, h8, h9⟩ := config_resolution c4Flags c4Env
  obtain ⟨g1, g2, g3, g4, g5, g6, g7, g8, g9⟩ := config_resolution c4FlagsFull c4Env
  exact ⟨h3, (h4 (by decide)).2.2.2.2.2, g5 (by decide), h6 (by decide)⟩

/-- C7: `fetchAccountList` succeeds exactly on a 200 response whose body
reads and decodes into a response with `success: true`; every other outcome —
transport error, non-200 status, body-read or decode failure, or
`success: false` — is an error; a non-200 error carries the status code and
the raw response body, and `success: false` is an error even though the
transport succeeded (HTTP 200, body decoded). -/
theorem fetch_outcome_errors (decode : String → Option AccountListResponse) :
    (∀ r : HttpResult,
      (∃ accounts, fetchAccountList decode r = .ok accounts) ↔
      (∃ body listResp, r = .response 200 none body ∧
        decode body = some listResp ∧ listResp.Success = true)) ∧
    (∀ msg, fetchAccountList decode (.transportError msg) = .err (.transport msg)) ∧
    (∀ (statusCode : Nat) (readErr : Option String) (body : String),
      statusCode ≠ 200 →
      fetchAccountList decode (.response statusCode readErr body) =
        .err (.badStatus statusCode body)) ∧
    (∀ (body : String) (listResp : AccountListResponse),
      decode body = some listResp → listResp.Success = false →
      fetchAccountList decode (.response 200 none body) = .err .successFalse) := by
  refine ⟨fun r => ⟨?_, ?_⟩, fun msg => rfl, fun s re b hs => ?_, fun b resp hdec hsucc => ?_⟩
  · rintro ⟨accounts, hok⟩
    cases r with
    | transportError msg => simp [fetchAccountList] at hok
    | response s re b =>
      simp only [fetchAccountList] at hok
      split at hok
      · simp at hok
      · rename_i hs
        rw [not_not] at hs
        cases re with
        | some msg => simp at hok
        | none =>
          cases hdec : decode b with
          | none => rw [hdec] at hok; simp at hok
          | some resp =>
            rw [hdec] at hok
            by_cases hS : resp.Success
            · exact ⟨b, resp, by rw [hs], hdec, hS⟩
            · simp [hS] at hok
  · rintro ⟨body, resp, rfl, hdec, hS⟩
    exact ⟨resp.Result, by simp [fetchAccountList, hdec, hS]⟩
  · simp only [fetchAccountList]
    rw [if_pos hs]
  · simp only [fetchAccountList]
    rw [if_neg (by simp), hdec]
    simp [hsucc]

/-- Witness for C7 at a concrete decoder and concrete responses. -/
theorem fetch_outcome_errors_witness :
    fetchAccountList sampleDecoder (.response 404 none "oops") =
      .err (.badStatus 404 "oops") ∧
    fetchAccountList sampleDecoder (.response 200 none "nosuccess") =
      .err .successFalse := by
  obtain ⟨h1, h2, h3, h4⟩ := fetch_outcome_errors sampleDecoder
  exact ⟨h3 404 none "oops" (by decide), h4 "nosuccess" failListResponse (by decide) rfl⟩
